import Mathlib

/-!
Shallow embedding of `internal/main.go` from the gcp-signed-urls repository.

The Go program has three helper functions and a `main`:
  * `GenerateUploadPolicy` builds a signed POST policy via the cloud SDK,
  * `CreateGzippedFile` gzips a string payload in memory and writes it to disk,
  * `UploadFileWithPolicy` performs a multipart POST of a local file using the policy,
and `main` runs them in sequence, aborting on the first error.

External collaborators (the cloud SDK's signing call, the gzip codec, the
filesystem and the HTTP transport) are modelled as explicit oracle parameters;
the Go code under verification is translated statement by statement.
-/

/-- Go error values as produced by `fmt.Errorf`: either a fresh message
(`errors.New` / `fmt.Errorf` without `%w`) or an annotated wrapper around an
inner error (`fmt.Errorf("step: %w", err)`). -/
inductive GoErr where
  | base (m : String)
  | wrap (step : String) (inner : GoErr)
deriving DecidableEq, Repr

/-- The message of a Go error: `fmt.Errorf("%s: %w", step, inner)` renders as
`step ++ ": " ++ inner message`. -/
def GoErr.msg : GoErr → String
  | GoErr.base m => m
  | GoErr.wrap step inner => step ++ ": " ++ inner.msg

/-- Byte strings (`[]byte` in Go). -/
abbrev Bytes := List UInt8

/-- The bytes of a Go string (`[]byte(s)`): its UTF-8 encoding. -/
def strBytes (s : String) : Bytes :=
  s.data.foldr (fun c acc => String.utf8EncodeChar c ++ acc) []

/-- A snapshot of the filesystem: an association list from paths to file
contents, most recent write first. -/
structure FsState where
  files : List (String × Bytes)
deriving DecidableEq, Repr

/-- Reading a file (`os.Open` + `io.Copy` reading it to the end): the contents
at the path, or `none` when no such file exists. -/
def FsState.read (fs : FsState) (path : String) : Option Bytes :=
  (fs.files.find? (fun kv => kv.1 == path)).map (fun kv => kv.2)

/-- `os.WriteFile path data`: the new snapshot maps `path` to `data`. -/
def FsState.writeFile (fs : FsState) (path : String) (data : Bytes) : FsState :=
  ⟨(path, data) :: fs.files⟩

/-! ## GenerateUploadPolicy (main.go lines 20-43) -/

/-- `time.Minute` in nanoseconds. -/
def minuteNs : Int := 60000000000

/-- Go's 64-bit signed integer arithmetic wraps on overflow; this reduces a
mathematical integer to the representative in `[-2^63, 2^63)`. -/
def int64Wrap (x : Int) : Int := (x + 2 ^ 63) % 2 ^ 64 - 2 ^ 63

/-- The duration `time.Duration(expireMinutes) * time.Minute`: an `int64`
product in nanoseconds, wrapping on overflow. -/
def expireDuration (expireMinutes : Int) : Int := int64Wrap (expireMinutes * minuteNs)

/-- The one condition constructor the program uses:
`storage.ConditionStartsWith(key, value)`. -/
inductive PostPolicyV4Condition where
  | startsWith (key value : String)
deriving DecidableEq, Repr

/-- The `storage.PolicyV4Fields` the program sets (only `ContentEncoding`). -/
structure PolicyV4Fields where
  contentEncoding : String
deriving DecidableEq, Repr

/-- `storage.PostPolicyV4Options` as populated by the program: the expiry
instant (nanoseconds since epoch), the fields, and the conditions. -/
structure PostPolicyV4Options where
  expires : Int
  fields : PolicyV4Fields
  conditions : List PostPolicyV4Condition
deriving DecidableEq, Repr

/-- `storage.PostPolicyV4`, the signed policy returned by the SDK: the POST
target URL and the signed form fields. Go keeps the fields in a map; the
embedding uses an association list. -/
structure PostPolicyV4 where
  url : String
  fields : List (String × String)
deriving DecidableEq, Repr

/-- Oracle for the cloud SDK call
`client.Bucket(bucket).GenerateSignedPostPolicyV4(objectKey, opts)`:
given the bucket, object key and options it either signs or fails. -/
abbrev SignOracle := String → String → PostPolicyV4Options → Except GoErr PostPolicyV4

/-- main.go lines 27-36: the options built for the signing call, at call time
`now` (nanoseconds since epoch). `Expires` is
`time.Now().Add(time.Duration(expireMinutes) * time.Minute)`. -/
def uploadPolicyOptions (now expireMinutes : Int) (username jobID : String) :
    PostPolicyV4Options :=
  let pfx := username ++ "/" ++ jobID ++ "/"
  { expires := now + expireDuration expireMinutes
    fields := { contentEncoding := "gzip" }
    conditions := [PostPolicyV4Condition.startsWith "$key" pfx,
                   PostPolicyV4Condition.startsWith "$Content-Encoding" ""] }

/-- main.go line 25: `objectKey := prefix + "${filename}"`. -/
def uploadObjectKey (username jobID : String) : String :=
  username ++ "/" ++ jobID ++ "/" ++ "$\x7bfilename\x7d"

/-- main.go lines 21-43, `GenerateUploadPolicy`: build the options, call the
SDK signing oracle, wrap a failure as
`fmt.Errorf("GenerateSignedPostPolicyV4: %w", err)`, and on success return the
policy together with the object-key folder string. -/
def GenerateUploadPolicy (sign : SignOracle) (now : Int)
    (bucket username jobID : String) (expireMinutes : Int) :
    Except GoErr (PostPolicyV4 × String) :=
  let pfx := username ++ "/" ++ jobID ++ "/"
  match sign bucket (uploadObjectKey username jobID)
      (uploadPolicyOptions now expireMinutes username jobID) with
  | Except.error e => Except.error (GoErr.wrap "GenerateSignedPostPolicyV4" e)
  | Except.ok policy => Except.ok (policy, pfx)

/-! ## CreateGzippedFile (main.go lines 45-60) -/

/-- The gzip codec (Go's `compress/gzip`), abstract: `compress` is the bytes a
`gzip.Writer` has flushed to its buffer after `Write` of the input followed by
`Close`; `gunzip` is decompression of a byte stream. -/
structure GzipLib where
  compress : Bytes → Bytes
  gunzip : Bytes → Option Bytes

/-- Failure oracle for the fallible steps of `CreateGzippedFile`: the error
returned by `gz.Write`, by `gz.Close`, and by `os.WriteFile` (each `none` when
the step succeeds; with a `bytes.Buffer` underneath, the first two never fail
in the real program, but the code handles them). -/
structure GzEffects where
  gzWriteErr : Option GoErr
  gzCloseErr : Option GoErr
  writeFileErr : Option GoErr

/-- main.go lines 46-60, `CreateGzippedFile`: gzip `content` into an in-memory
buffer (`gz.Write`, then `gz.Close`), then `os.WriteFile` the buffer to
`filePath`. Each failing step returns immediately with a wrapped error and the
filesystem untouched. Returns the Go result and the filesystem after the call. -/
def CreateGzippedFile (lib : GzipLib) (eff : GzEffects) (fs : FsState)
    (filePath content : String) : Except GoErr Unit × FsState :=
  match eff.gzWriteErr with
  | some e => (Except.error (GoErr.wrap "gzip write" e), fs)
  | none =>
    match eff.gzCloseErr with
    | some e => (Except.error (GoErr.wrap "gzip close" e), fs)
    | none =>
      let buf := lib.compress (strBytes content)
      match eff.writeFileErr with
      | some e => (Except.error (GoErr.wrap "write gz file" e), fs)
      | none => (Except.ok (), fs.writeFile filePath buf)

/-! ## UploadFileWithPolicy (main.go lines 62-112) -/

/-- One part of the multipart form body: a plain field
(`writer.WriteField(k, v)`) or the file part
(`writer.CreateFormFile("file", localFile)` followed by copying the file's
bytes into it). -/
inductive MultipartPart where
  | field (name value : String)
  | filePart (fieldname filename : String) (contents : Bytes)
deriving DecidableEq, Repr

/-- The HTTP request assembled by `UploadFileWithPolicy`: method, target URL,
`Content-Type` header, and the multipart body (modelled at part granularity;
the MIME byte framing is the standard library's). -/
structure HttpRequest where
  method : String
  url : String
  contentType : String
  parts : List MultipartPart
deriving DecidableEq, Repr

/-- An HTTP response: numeric status code, status line text, and body. -/
structure HttpResponse where
  statusCode : Int
  status : String
  body : String
deriving DecidableEq, Repr

/-- Failure/behaviour oracle for `UploadFileWithPolicy`: errors of
`writer.WriteField` (per field key), `writer.CreateFormFile`, `io.Copy` and
`http.NewRequest` (`none` when the step succeeds), the random multipart
boundary, and the HTTP transport `http.DefaultClient.Do`. -/
structure UploadEffects where
  writeFieldErr : String → Option GoErr
  createFormFileErr : Option GoErr
  copyErr : Option GoErr
  newRequestErr : Option GoErr
  boundary : String
  send : HttpRequest → Except GoErr HttpResponse

/-- The `for k, v := range policy.Fields` loop of main.go lines 68-72: the
first field whose `WriteField` fails, if any. -/
def firstFieldErr (errOf : String → Option GoErr) :
    List (String × String) → Option (String × GoErr)
  | [] => none
  | kv :: rest =>
    match errOf kv.1 with
    | some e => some (kv.1, e)
    | none => firstFieldErr errOf rest

/-- The request `UploadFileWithPolicy` sends: a POST to `policy.URL`, with
`Content-Type` from `writer.FormDataContentType()`, whose body holds one field
part per policy field plus the file part named `"file"` carrying the contents
of `localFile`. -/
def uploadRequest (policy : PostPolicyV4) (localFile : String) (contents : Bytes)
    (boundary : String) : HttpRequest :=
  { method := "POST"
    url := policy.url
    contentType := "multipart/form-data; boundary=" ++ boundary
    parts := policy.fields.map (fun kv => MultipartPart.field kv.1 kv.2) ++
             [MultipartPart.filePart "file" localFile contents] }

/-- main.go lines 63-112, `UploadFileWithPolicy`: write the policy fields into
a multipart form, add the file part, read the local file into it, POST the form
to `policy.URL`, and fail unless the response status is 204 or 200. Returns the
Go result, the list of requests given to the transport (in order), and the
lines printed to stdout. -/
def UploadFileWithPolicy (eff : UploadEffects) (fs : FsState)
    (policy : PostPolicyV4) (localFile objectKey : String) :
    Except GoErr Unit × List HttpRequest × List String :=
  match firstFieldErr eff.writeFieldErr policy.fields with
  | some ke => (Except.error (GoErr.wrap ("write field " ++ ke.1) ke.2), [], [])
  | none =>
    match eff.createFormFileErr with
    | some e => (Except.error (GoErr.wrap "create form file" e), [], [])
    | none =>
      match FsState.read fs localFile with
      | none => (Except.error (GoErr.wrap "open file"
          (GoErr.base ("open " ++ localFile ++ ": no such file or directory"))), [], [])
      | some contents =>
        match eff.copyErr with
        | some e => (Except.error (GoErr.wrap "copy file" e), [], [])
        | none =>
          match eff.newRequestErr with
          | some e => (Except.error (GoErr.wrap "new request" e), [], [])
          | none =>
            let req := uploadRequest policy localFile contents eff.boundary
            match eff.send req with
            | Except.error e => (Except.error (GoErr.wrap "upload error" e), [req], [])
            | Except.ok resp =>
              if resp.statusCode ≠ 204 ∧ resp.statusCode ≠ 200 then
                (Except.error (GoErr.base ("upload failed: status " ++ resp.status ++
                  ", body: " ++ resp.body)), [req], [])
              else
                (Except.ok (), [req],
                  ["✅ Upload succeeded! Object key: " ++ objectKey])

/-! ## main (main.go lines 114-149) -/

/-- The three helper calls `main` can perform, in source order. -/
inductive Step where
  | genPolicy
  | createGzip
  | upload
deriving DecidableEq, Repr

/-- How `main` ends: normal exit, or `log.Fatalf` with the logged message. -/
inductive ExitStatus where
  | normal
  | fatal (m : String)
deriving DecidableEq, Repr

/-- Oracle inputs of `main`: the `storage.NewClient` outcome, the `GCS_BUCKET`
environment variable, the fresh UUID, the call time, and the oracles of the
three helpers. -/
structure MainEffects where
  newClientErr : Option GoErr
  gcsBucket : String
  newUUID : String
  now : Int
  sign : SignOracle
  gz : GzipLib
  gzEff : GzEffects
  upl : UploadEffects

/-- main.go line 139: the payload gzipped and uploaded. -/
def mainContent : String :=
  "Hello world! This is a test file for GCS upload.\nLine 2 of the file."

/-- main.go lines 114-149, `main`: create the client, then run
`GenerateUploadPolicy` (bucket from the environment, username `"alice"`, a
fresh UUID job id, 15 minutes), `CreateGzippedFile` to `/tmp/test.gz`, and
`UploadFileWithPolicy` with object key `prefix + "test.gz"`, each step only
after the previous one succeeded; any error is fatal. Returns the exit status,
the helpers invoked in order, and the filesystem after the run. -/
def goMain (eff : MainEffects) (fs : FsState) : ExitStatus × List Step × FsState :=
  match eff.newClientErr with
  | some e => (ExitStatus.fatal ("storage.NewClient: " ++ e.msg), [], fs)
  | none =>
    let bucket := eff.gcsBucket
    let username := "alice"
    let jobID := eff.newUUID
    let localFile := "/tmp/test.gz"
    let objectName := "test.gz"
    match GenerateUploadPolicy eff.sign eff.now bucket username jobID 15 with
    | Except.error e =>
      (ExitStatus.fatal ("GenerateUploadPolicy: " ++ e.msg), [Step.genPolicy], fs)
    | Except.ok policyAndPfx =>
      match CreateGzippedFile eff.gz eff.gzEff fs localFile mainContent with
      | (Except.error e, fs1) =>
        (ExitStatus.fatal ("CreateGzippedFile: " ++ e.msg),
          [Step.genPolicy, Step.createGzip], fs1)
      | (Except.ok _, fs1) =>
        let objectKey := policyAndPfx.2 ++ objectName
        match UploadFileWithPolicy eff.upl fs1 policyAndPfx.1 localFile objectKey with
        | (Except.error e, _, _) =>
          (ExitStatus.fatal ("UploadFileWithPolicy: " ++ e.msg),
            [Step.genPolicy, Step.createGzip, Step.upload], fs1)
        | (Except.ok _, _, _) =>
          (ExitStatus.normal, [Step.genPolicy, Step.createGzip, Step.upload], fs1)

/-! ## Shared helper definitions and lemmas -/

deriving instance DecidableEq for Except

/-- A signing oracle that always succeeds with the given policy. -/
def okSign (p : PostPolicyV4) : SignOracle := fun _ _ _ => Except.ok p

/-- A sample signed policy, standing for what the SDK would return. -/
def demoPolicy : PostPolicyV4 :=
  ⟨"https://storage.googleapis.com/demo-bucket",
   [("key", "alice/job1/test.gz"), ("policy", "c2lnbmVk")]⟩

/-- A gzip-effects oracle where every step succeeds. -/
def noGzErr : GzEffects := ⟨none, none, none⟩

/-- A (trivially correct) instantiation of the abstract gzip codec, used to
exhibit concrete runs: compression is the identity. -/
def idGzip : GzipLib := ⟨fun bs => bs, fun bs => some bs⟩

/-- Upload effects where every local step succeeds and the server answers
`204 No Content`. -/
def demoUpload : UploadEffects :=
  ⟨fun _ => none, none, none, none, "demo-boundary",
   fun _ => Except.ok ⟨204, "204 No Content", ""⟩⟩

/-- Upload effects where every local step succeeds and the server answers
`500`. -/
def demoUpload500 : UploadEffects :=
  ⟨fun _ => none, none, none, none, "demo-boundary",
   fun _ => Except.ok ⟨500, "500 Internal Server Error", "boom"⟩⟩

/-- Main-effects oracle where every step succeeds. -/
def demoMainEffects : MainEffects :=
  ⟨none, "demo-bucket", "job1", 0, okSign demoPolicy, idGzip, noGzErr, demoUpload⟩

/-- When no `WriteField` call fails, the field loop completes without error. -/
lemma firstFieldErr_none (l : List (String × String)) :
    firstFieldErr (fun _ => none) l = none := by
  induction l with
  | nil => rfl
  | cons kv rest ih => simp [firstFieldErr, ih]

/-- Reading back the path just written returns the data just written. -/
lemma read_writeFile (fs : FsState) (p : String) (d : Bytes) :
    FsState.read (fs.writeFile p d) p = some d := by
  simp [FsState.read, FsState.writeFile, List.find?]

/-! ## Claim theorems -/

/-- C1, counterexample: at `expireMinutes = 2147483647` the call succeeds, yet
the policy's expiry does not equal the call time plus that many minutes — the
Go `int64` product `time.Duration(expireMinutes) * time.Minute` overflows and
wraps. -/
theorem C1_expires_counterexample :
    GenerateUploadPolicy (okSign demoPolicy) 0 "demo-bucket" "alice" "job1" 2147483647 =
      Except.ok (demoPolicy, "alice/job1/") ∧
    (uploadPolicyOptions 0 2147483647 "alice" "job1").expires ≠ 0 + 2147483647 * minuteNs := by
  exact ⟨rfl, by decide⟩

/-- C1, amended: for every integer `expireMinutes` whose value in nanoseconds
fits in a signed 64-bit integer — in particular zero and negative values — when
`GenerateUploadPolicy` succeeds, the `Expires` option of the policy it builds
equals the call time plus exactly `expireMinutes` minutes; no validation
rejects zero or negative values. -/
theorem C1_expires_exact (sign : SignOracle) (now : Int) (bucket username jobID : String)
    (expireMinutes : Int) (p : PostPolicyV4) (pfx : String)
    (hlo : -(2 ^ 63) ≤ expireMinutes * minuteNs) (hhi : expireMinutes * minuteNs < 2 ^ 63)
    (_hok : GenerateUploadPolicy sign now bucket username jobID expireMinutes =
      Except.ok (p, pfx)) :
    (uploadPolicyOptions now expireMinutes username jobID).expires =
      now + expireMinutes * minuteNs := by
  have h1 : (0 : Int) ≤ expireMinutes * minuteNs + 2 ^ 63 := by linarith
  have h2 : expireMinutes * minuteNs + 2 ^ 63 < 2 ^ 64 := by
    have : (2 : Int) ^ 63 + 2 ^ 63 = 2 ^ 64 := by norm_num
    linarith
  simp [uploadPolicyOptions, expireDuration, int64Wrap]
  omega

/-- C1, witness: a concrete successful run at 15 minutes. -/
theorem C1_expires_exact_witness :
    (uploadPolicyOptions 0 15 "alice" "job1").expires = 0 + 15 * minuteNs :=
  C1_expires_exact (okSign demoPolicy) 0 "demo-bucket" "alice" "job1" 15 demoPolicy
    "alice/job1/" (by decide) (by decide) rfl

/-- C2: when `GenerateUploadPolicy` succeeds, the returned folder string is
`username + "/" + jobID + "/"`, the object key passed to the SDK is that string
followed by `"${filename}"`, the conditions contain a starts-with condition on
`$key` with that string and a starts-with condition on `$Content-Encoding`, and
the fields fix `Content-Encoding` to `"gzip"`. -/
theorem C2_scoped_policy (sign : SignOracle) (now : Int) (bucket username jobID : String)
    (expireMinutes : Int) (p : PostPolicyV4) (pfx : String)
    (hok : GenerateUploadPolicy sign now bucket username jobID expireMinutes =
      Except.ok (p, pfx)) :
    pfx = username ++ "/" ++ jobID ++ "/" ∧
    uploadObjectKey username jobID = pfx ++ "$\x7bfilename\x7d" ∧
    PostPolicyV4Condition.startsWith "$key" pfx ∈
      (uploadPolicyOptions now expireMinutes username jobID).conditions ∧
    PostPolicyV4Condition.startsWith "$Content-Encoding" "" ∈
      (uploadPolicyOptions now expireMinutes username jobID).conditions ∧
    (uploadPolicyOptions now expireMinutes username jobID).fields.contentEncoding = "gzip" := by
  simp only [GenerateUploadPolicy] at hok
  split at hok
  · exact absurd hok (by simp)
  · simp only [Except.ok.injEq, Prod.mk.injEq] at hok
    obtain ⟨hp, hpfx⟩ := hok
    subst hpfx
    refine ⟨rfl, rfl, ?_, ?_, rfl⟩ <;> simp [uploadPolicyOptions]

/-- C2, witness: the scoping facts at a concrete successful run. -/
theorem C2_scoped_policy_witness :
    "alice/job1/" = "alice" ++ "/" ++ "job1" ++ "/" ∧
    uploadObjectKey "alice" "job1" = "alice/job1/" ++ "$\x7bfilename\x7d" ∧
    PostPolicyV4Condition.startsWith "$key" "alice/job1/" ∈
      (uploadPolicyOptions 0 15 "alice" "job1").conditions ∧
    PostPolicyV4Condition.startsWith "$Content-Encoding" "" ∈
      (uploadPolicyOptions 0 15 "alice" "job1").conditions ∧
    (uploadPolicyOptions 0 15 "alice" "job1").fields.contentEncoding = "gzip" :=
  C2_scoped_policy (okSign demoPolicy) 0 "demo-bucket" "alice" "job1" 15 demoPolicy
    "alice/job1/" rfl

/-- C3: for any gzip codec in which decompression inverts compression (the
documented contract of `compress/gzip`), whenever `CreateGzippedFile` returns
`nil`, the file it wrote at `filePath` is the compressed stream of `content`'s
bytes, and decompressing it yields exactly the bytes of `content`. -/
theorem C3_gzip_roundtrip (lib : GzipLib)
    (hlib : ∀ bs, lib.gunzip (lib.compress bs) = some bs)
    (eff : GzEffects) (fs : FsState) (filePath content : String)
    (hok : (CreateGzippedFile lib eff fs filePath content).1 = Except.ok ()) :
    ∃ data,
      FsState.read (CreateGzippedFile lib eff fs filePath content).2 filePath = some data ∧
      lib.gunzip data = some (strBytes content) := by
  obtain ⟨w, c, wf⟩ := eff
  cases w with
  | some e => simp [CreateGzippedFile] at hok
  | none =>
    cases c with
    | some e => simp [CreateGzippedFile] at hok
    | none =>
      cases wf with
      | some e => simp [CreateGzippedFile] at hok
      | none =>
        exact ⟨lib.compress (strBytes content),
          read_writeFile fs filePath (lib.compress (strBytes content)), hlib _⟩

/-- C3, witness: a concrete successful run on the payload `"hello"`. -/
theorem C3_gzip_roundtrip_witness :
    ∃ data,
      FsState.read (CreateGzippedFile idGzip noGzErr ⟨[]⟩ "/tmp/test.gz" "hello").2
        "/tmp/test.gz" = some data ∧
      idGzip.gunzip data = some (strBytes "hello") :=
  C3_gzip_roundtrip idGzip (fun _ => rfl) noGzErr ⟨[]⟩ "/tmp/test.gz" "hello" rfl

/-- C10: when the gzip write step or the gzip close step fails,
`CreateGzippedFile` returns the wrapped error and the filesystem after the call
is exactly the filesystem before it — the file at `filePath` is neither created
nor modified, and no partly compressed output is written. -/
theorem C10_no_partial_write (lib : GzipLib) (e : GoErr) (c w : Option GoErr)
    (fs : FsState) (filePath content : String) :
    CreateGzippedFile lib ⟨some e, c, w⟩ fs filePath content =
      (Except.error (GoErr.wrap "gzip write" e), fs) ∧
    CreateGzippedFile lib ⟨none, some e, w⟩ fs filePath content =
      (Except.error (GoErr.wrap "gzip close" e), fs) :=
  ⟨rfl, rfl⟩

/-- C4: errors are only propagated upward. Each failing internal step of
`GenerateUploadPolicy` (the SDK signing call), `CreateGzippedFile` (gzip write,
gzip close, file write) and `UploadFileWithPolicy` (field write, form-file
creation, opening the local file, copying it, request construction, the POST
itself) makes the function return, at once, an error wrapping that step's error
under the step's annotation, with no later step performed and no retry (at most
the one recorded request is ever sent, and the filesystem is untouched); and in
`main` a non-nil error from any of the three helpers is fatal, terminating the
program after the helpers already run. -/
theorem C4_error_propagation :
    (∀ (e : GoErr) (now : Int) (bucket username jobID : String) (em : Int),
      GenerateUploadPolicy (fun _ _ _ => Except.error e) now bucket username jobID em =
        Except.error (GoErr.wrap "GenerateSignedPostPolicyV4" e)) ∧
    (∀ (lib : GzipLib) (e : GoErr) (c w : Option GoErr) (fs : FsState) (fp ct : String),
      CreateGzippedFile lib ⟨some e, c, w⟩ fs fp ct =
        (Except.error (GoErr.wrap "gzip write" e), fs) ∧
      CreateGzippedFile lib ⟨none, some e, w⟩ fs fp ct =
        (Except.error (GoErr.wrap "gzip close" e), fs) ∧
      CreateGzippedFile lib ⟨none, none, some e⟩ fs fp ct =
        (Except.error (GoErr.wrap "write gz file" e), fs)) ∧
    (∀ (e : GoErr) (cf cp nr : Option GoErr) (bd : String)
        (snd : HttpRequest → Except GoErr HttpResponse) (fs : FsState)
        (url k v : String) (rest : List (String × String)) (f oKey : String),
      UploadFileWithPolicy ⟨fun _ => some e, cf, cp, nr, bd, snd⟩ fs
          ⟨url, (k, v) :: rest⟩ f oKey =
        (Except.error (GoErr.wrap ("write field " ++ k) e), [], [])) ∧
    (∀ (e : GoErr) (cp nr : Option GoErr) (bd : String)
        (snd : HttpRequest → Except GoErr HttpResponse) (fs : FsState)
        (policy : PostPolicyV4) (f oKey : String),
      UploadFileWithPolicy ⟨fun _ => none, some e, cp, nr, bd, snd⟩ fs policy f oKey =
        (Except.error (GoErr.wrap "create form file" e), [], [])) ∧
    (∀ (cp nr : Option GoErr) (bd : String)
        (snd : HttpRequest → Except GoErr HttpResponse) (policy : PostPolicyV4)
        (f oKey : String),
      UploadFileWithPolicy ⟨fun _ => none, none, cp, nr, bd, snd⟩ ⟨[]⟩ policy f oKey =
        (Except.error (GoErr.wrap "open file"
          (GoErr.base ("open " ++ f ++ ": no such file or directory"))), [], [])) ∧
    (∀ (e : GoErr) (nr : Option GoErr) (bd : String)
        (snd : HttpRequest → Except GoErr HttpResponse) (policy : PostPolicyV4)
        (data : Bytes) (oKey : String),
      UploadFileWithPolicy ⟨fun _ => none, none, some e, nr, bd, snd⟩
          ⟨[("/tmp/test.gz", data)]⟩ policy "/tmp/test.gz" oKey =
        (Except.error (GoErr.wrap "copy file" e), [], [])) ∧
    (∀ (e : GoErr) (bd : String) (snd : HttpRequest → Except GoErr HttpResponse)
        (policy : PostPolicyV4) (data : Bytes) (oKey : String),
      UploadFileWithPolicy ⟨fun _ => none, none, none, some e, bd, snd⟩
          ⟨[("/tmp/test.gz", data)]⟩ policy "/tmp/test.gz" oKey =
        (Except.error (GoErr.wrap "new request" e), [], [])) ∧
    (∀ (e : GoErr) (bd : String) (policy : PostPolicyV4) (data : Bytes) (oKey : String),
      UploadFileWithPolicy ⟨fun _ => none, none, none, none, bd, fun _ => Except.error e⟩
          ⟨[("/tmp/test.gz", data)]⟩ policy "/tmp/test.gz" oKey =
        (Except.error (GoErr.wrap "upload error" e),
         [uploadRequest policy "/tmp/test.gz" data bd], [])) ∧
    (∀ (e : GoErr) (bkt uuid : String) (now : Int) (sg : SignOracle) (lib : GzipLib)
        (ge : GzEffects) (up : UploadEffects) (fs : FsState),
      goMain ⟨some e, bkt, uuid, now, sg, lib, ge, up⟩ fs =
        (ExitStatus.fatal ("storage.NewClient: " ++ e.msg), [], fs)) ∧
    (∀ (e : GoErr) (bkt uuid : String) (now : Int) (lib : GzipLib)
        (ge : GzEffects) (up : UploadEffects) (fs : FsState),
      goMain ⟨none, bkt, uuid, now, fun _ _ _ => Except.error e, lib, ge, up⟩ fs =
        (ExitStatus.fatal ("GenerateUploadPolicy: " ++
          GoErr.msg (GoErr.wrap "GenerateSignedPostPolicyV4" e)),
         [Step.genPolicy], fs)) ∧
    (∀ (e : GoErr) (bkt uuid : String) (now : Int) (pol : PostPolicyV4)
        (lib : GzipLib) (c w : Option GoErr) (up : UploadEffects) (fs : FsState),
      goMain ⟨none, bkt, uuid, now, okSign pol, lib, ⟨some e, c, w⟩, up⟩ fs =
        (ExitStatus.fatal ("CreateGzippedFile: " ++ GoErr.msg (GoErr.wrap "gzip write" e)),
         [Step.genPolicy, Step.createGzip], fs)) ∧
    (∀ (e : GoErr) (bkt uuid url : String) (now : Int) (lib : GzipLib)
        (cp nr : Option GoErr) (bd : String)
        (snd : HttpRequest → Except GoErr HttpResponse) (fs : FsState),
      (goMain ⟨none, bkt, uuid, now, okSign ⟨url, []⟩, lib, ⟨none, none, none⟩,
          ⟨fun _ => none, some e, cp, nr, bd, snd⟩⟩ fs).1 =
        ExitStatus.fatal ("UploadFileWithPolicy: " ++
          GoErr.msg (GoErr.wrap "create form file" e)) ∧
      (goMain ⟨none, bkt, uuid, now, okSign ⟨url, []⟩, lib, ⟨none, none, none⟩,
          ⟨fun _ => none, some e, cp, nr, bd, snd⟩⟩ fs).2.1 =
        [Step.genPolicy, Step.createGzip, Step.upload]) := by
  refine ⟨?_, ?_, ?_, ?_, ?_, ?_, ?_, ?_, ?_, ?_, ?_, ?_⟩ <;> intros <;>
    first
      | rfl
      | exact ⟨rfl, rfl⟩
      | exact ⟨rfl, rfl, rfl⟩
      | simp [UploadFileWithPolicy, firstFieldErr_none, FsState.read, uploadRequest]

/-- C5: `main` is the linear three-step sequence. Its trace of helper calls is
always a pre-run of `[genPolicy, createGzip, upload]` in that order with no
step repeated; the policy step runs only if the client was created, the gzip
step only if the policy step succeeded, the upload step only if the gzip step
succeeded; and a normal exit means all three ran. -/
theorem C5_main_sequence (eff : MainEffects) (fs : FsState) :
    ((goMain eff fs).2.1 = [] ∨ (goMain eff fs).2.1 = [Step.genPolicy] ∨
     (goMain eff fs).2.1 = [Step.genPolicy, Step.createGzip] ∨
     (goMain eff fs).2.1 = [Step.genPolicy, Step.createGzip, Step.upload]) ∧
    (Step.genPolicy ∈ (goMain eff fs).2.1 → eff.newClientErr = none) ∧
    (Step.createGzip ∈ (goMain eff fs).2.1 →
      ∃ ppfx, GenerateUploadPolicy eff.sign eff.now eff.gcsBucket "alice" eff.newUUID 15 =
        Except.ok ppfx) ∧
    (Step.upload ∈ (goMain eff fs).2.1 →
      (CreateGzippedFile eff.gz eff.gzEff fs "/tmp/test.gz" mainContent).1 = Except.ok ()) ∧
    ((goMain eff fs).1 = ExitStatus.normal →
      (goMain eff fs).2.1 = [Step.genPolicy, Step.createGzip, Step.upload]) := by
  cases h1 : eff.newClientErr with
  | some e => simp [goMain, h1]
  | none =>
    cases h2 : GenerateUploadPolicy eff.sign eff.now eff.gcsBucket "alice" eff.newUUID 15 with
    | error e => simp [goMain, h1, h2]
    | ok ppfx =>
      rcases h3 : CreateGzippedFile eff.gz eff.gzEff fs "/tmp/test.gz" mainContent with
        ⟨res, fs1⟩
      cases res with
      | error e => simp [goMain, h1, h2, h3]
      | ok u =>
        rcases h4 : UploadFileWithPolicy eff.upl fs1 ppfx.1 "/tmp/test.gz"
            (ppfx.2 ++ "test.gz") with ⟨ures, sent, printed⟩
        cases ures with
        | error e => simp [goMain, h1, h2, h3, h4]
        | ok v => simp [goMain, h1, h2, h3, h4]

/-- C5, witness: a concrete run in which everything succeeds executes exactly
the three steps in order. -/
theorem C5_main_sequence_witness :
    (goMain demoMainEffects ⟨[]⟩).2.1 = [Step.genPolicy, Step.createGzip, Step.upload] :=
  (C5_main_sequence demoMainEffects ⟨[]⟩).2.2.2.2 rfl

/-- C6: when the preparatory steps succeed and `localFile` is readable,
`UploadFileWithPolicy` hands the transport exactly one request — a POST to
`policy.URL`, with a multipart form-data `Content-Type`, whose body has one
field part per key/value pair of `policy.Fields` plus one file part named
`"file"` carrying the full contents of `localFile` — whatever the transport
then does. -/
theorem C6_single_post (eff : UploadEffects) (fs : FsState) (policy : PostPolicyV4)
    (localFile objectKey : String) (contents : Bytes)
    (hf : firstFieldErr eff.writeFieldErr policy.fields = none)
    (hcf : eff.createFormFileErr = none)
    (hread : FsState.read fs localFile = some contents)
    (hcp : eff.copyErr = none) (hnr : eff.newRequestErr = none) :
    (UploadFileWithPolicy eff fs policy localFile objectKey).2.1 =
      [uploadRequest policy localFile contents eff.boundary] ∧
    (uploadRequest policy localFile contents eff.boundary).method = "POST" ∧
    (uploadRequest policy localFile contents eff.boundary).url = policy.url ∧
    (uploadRequest policy localFile contents eff.boundary).contentType =
      "multipart/form-data; boundary=" ++ eff.boundary ∧
    (uploadRequest policy localFile contents eff.boundary).parts =
      policy.fields.map (fun kv => MultipartPart.field kv.1 kv.2) ++
        [MultipartPart.filePart "file" localFile contents] := by
  refine ⟨?_, rfl, rfl, rfl, rfl⟩
  simp only [UploadFileWithPolicy, hf, hcf, hread, hcp, hnr]
  cases hs : eff.send (uploadRequest policy localFile contents eff.boundary) with
  | error e => simp [hs]
  | ok resp =>
    by_cases hc : resp.statusCode ≠ 204 ∧ resp.statusCode ≠ 200 <;> simp [hs, hc]

/-- C6, witness: the single request of a concrete successful upload. -/
theorem C6_single_post_witness :
    (UploadFileWithPolicy demoUpload ⟨[("/tmp/test.gz", [31, 139])]⟩ demoPolicy
        "/tmp/test.gz" "alice/job1/test.gz").2.1 =
      [uploadRequest demoPolicy "/tmp/test.gz" [31, 139] demoUpload.boundary] ∧
    (uploadRequest demoPolicy "/tmp/test.gz" [31, 139] demoUpload.boundary).method = "POST" ∧
    (uploadRequest demoPolicy "/tmp/test.gz" [31, 139] demoUpload.boundary).url =
      demoPolicy.url ∧
    (uploadRequest demoPolicy "/tmp/test.gz" [31, 139] demoUpload.boundary).contentType =
      "multipart/form-data; boundary=" ++ demoUpload.boundary ∧
    (uploadRequest demoPolicy "/tmp/test.gz" [31, 139] demoUpload.boundary).parts =
      demoPolicy.fields.map (fun kv => MultipartPart.field kv.1 kv.2) ++
        [MultipartPart.filePart "file" "/tmp/test.gz" [31, 139]] :=
  C6_single_post demoUpload ⟨[("/tmp/test.gz", [31, 139])]⟩ demoPolicy "/tmp/test.gz"
    "alice/job1/test.gz" [31, 139] rfl rfl (by decide) rfl rfl

/-- C7: every request `UploadFileWithPolicy` ever hands the transport is built
solely from the signed policy (its URL and fields), the local file's name and
bytes, and the multipart boundary — no other input, in particular no service
account key, reaches the request. -/
theorem C7_request_from_policy_only (eff : UploadEffects) (fs : FsState)
    (policy : PostPolicyV4) (localFile objectKey : String) (r : HttpRequest)
    (hr : r ∈ (UploadFileWithPolicy eff fs policy localFile objectKey).2.1) :
    ∃ contents, FsState.read fs localFile = some contents ∧
      r = uploadRequest policy localFile contents eff.boundary := by
  cases h1 : firstFieldErr eff.writeFieldErr policy.fields with
  | some ke => simp [UploadFileWithPolicy, h1] at hr
  | none =>
    cases h2 : eff.createFormFileErr with
    | some e => simp [UploadFileWithPolicy, h1, h2] at hr
    | none =>
      cases h3 : FsState.read fs localFile with
      | none => simp [UploadFileWithPolicy, h1, h2, h3] at hr
      | some contents =>
        cases h4 : eff.copyErr with
        | some e => simp [UploadFileWithPolicy, h1, h2, h3, h4] at hr
        | none =>
          cases h5 : eff.newRequestErr with
          | some e => simp [UploadFileWithPolicy, h1, h2, h3, h4, h5] at hr
          | none =>
            refine ⟨contents, rfl, ?_⟩
            cases h6 : eff.send (uploadRequest policy localFile contents eff.boundary) with
            | error e =>
              simp [UploadFileWithPolicy, h1, h2, h3, h4, h5, h6] at hr
              exact hr
            | ok resp =>
              by_cases hc : resp.statusCode ≠ 204 ∧ resp.statusCode ≠ 200 <;>
                simp [UploadFileWithPolicy, h1, h2, h3, h4, h5, h6, hc] at hr <;>
                exact hr

/-- C7, witness: the request of a concrete run is determined by the policy and
the file. -/
theorem C7_request_from_policy_only_witness :
    ∃ contents,
      FsState.read ⟨[("/tmp/test.gz", [31, 139])]⟩ "/tmp/test.gz" = some contents ∧
      uploadRequest demoPolicy "/tmp/test.gz" [31, 139] demoUpload.boundary =
        uploadRequest demoPolicy "/tmp/test.gz" contents demoUpload.boundary :=
  C7_request_from_policy_only demoUpload ⟨[("/tmp/test.gz", [31, 139])]⟩ demoPolicy
    "/tmp/test.gz" "alice/job1/test.gz"
    (uploadRequest demoPolicy "/tmp/test.gz" [31, 139] demoUpload.boundary) (by decide)

/-- C8: the `objectKey` argument does not influence the upload. Two calls of
`UploadFileWithPolicy` differing only in `objectKey` return the same result and
hand the transport the same requests; `objectKey` appears only in the success
message printed when the upload succeeds. -/
theorem C8_objectKey_noninterference (eff : UploadEffects) (fs : FsState)
    (policy : PostPolicyV4) (localFile k1 k2 : String) :
    (UploadFileWithPolicy eff fs policy localFile k1).1 =
      (UploadFileWithPolicy eff fs policy localFile k2).1 ∧
    (UploadFileWithPolicy eff fs policy localFile k1).2.1 =
      (UploadFileWithPolicy eff fs policy localFile k2).2.1 ∧
    (UploadFileWithPolicy eff fs policy localFile k1).2.2 =
      (if (UploadFileWithPolicy eff fs policy localFile k1).1 = Except.ok ()
       then ["✅ Upload succeeded! Object key: " ++ k1] else []) := by
  cases h1 : firstFieldErr eff.writeFieldErr policy.fields with
  | some ke => simp [UploadFileWithPolicy, h1]
  | none =>
    cases h2 : eff.createFormFileErr with
    | some e => simp [UploadFileWithPolicy, h1, h2]
    | none =>
      cases h3 : FsState.read fs localFile with
      | none => simp [UploadFileWithPolicy, h1, h2, h3]
      | some contents =>
        cases h4 : eff.copyErr with
        | some e => simp [UploadFileWithPolicy, h1, h2, h3, h4]
        | none =>
          cases h5 : eff.newRequestErr with
          | some e => simp [UploadFileWithPolicy, h1, h2, h3, h4, h5]
          | none =>
            cases h6 : eff.send (uploadRequest policy localFile contents eff.boundary) with
            | error e => simp [UploadFileWithPolicy, h1, h2, h3, h4, h5, h6]
            | ok resp =>
              by_cases hc : resp.statusCode ≠ 204 ∧ resp.statusCode ≠ 200 <;>
                simp [UploadFileWithPolicy, h1, h2, h3, h4, h5, h6, hc]

/-- C9: `UploadFileWithPolicy` returns `nil` iff every preparatory step
succeeds, the file is readable, the POST is sent without a transport error and
the response status is 204 or 200; and for any other status it returns an
error whose message carries the response status text and body. -/
theorem C9_status_check (eff : UploadEffects) (fs : FsState) (policy : PostPolicyV4)
    (localFile objectKey : String) :
    ((UploadFileWithPolicy eff fs policy localFile objectKey).1 = Except.ok () ↔
      firstFieldErr eff.writeFieldErr policy.fields = none ∧
      eff.createFormFileErr = none ∧ eff.copyErr = none ∧ eff.newRequestErr = none ∧
      ∃ contents resp, FsState.read fs localFile = some contents ∧
        eff.send (uploadRequest policy localFile contents eff.boundary) = Except.ok resp ∧
        (resp.statusCode = 204 ∨ resp.statusCode = 200)) ∧
    (∀ contents resp,
      firstFieldErr eff.writeFieldErr policy.fields = none →
      eff.createFormFileErr = none →
      FsState.read fs localFile = some contents →
      eff.copyErr = none → eff.newRequestErr = none →
      eff.send (uploadRequest policy localFile contents eff.boundary) = Except.ok resp →
      resp.statusCode ≠ 204 → resp.statusCode ≠ 200 →
      (UploadFileWithPolicy eff fs policy localFile objectKey).1 =
        Except.error (GoErr.base ("upload failed: status " ++ resp.status ++
          ", body: " ++ resp.body))) := by
  constructor
  · cases h1 : firstFieldErr eff.writeFieldErr policy.fields with
    | some ke =>
      have hres : (UploadFileWithPolicy eff fs policy localFile objectKey).1 =
          Except.error (GoErr.wrap ("write field " ++ ke.1) ke.2) := by
        simp [UploadFileWithPolicy, h1]
      rw [hres]
      constructor
      · intro h; exact absurd h (by simp)
      · rintro ⟨hf, -⟩; cases hf
    | none =>
      cases h2 : eff.createFormFileErr with
      | some e =>
        have hres : (UploadFileWithPolicy eff fs policy localFile objectKey).1 =
            Except.error (GoErr.wrap "create form file" e) := by
          simp [UploadFileWithPolicy, h1, h2]
        rw [hres]
        constructor
        · intro h; exact absurd h (by simp)
        · rintro ⟨-, hf, -⟩; cases hf
      | none =>
        cases h3 : FsState.read fs localFile with
        | none =>
          have hres : (UploadFileWithPolicy eff fs policy localFile objectKey).1 =
              Except.error (GoErr.wrap "open file"
                (GoErr.base ("open " ++ localFile ++ ": no such file or directory"))) := by
            simp [UploadFileWithPolicy, h1, h2, h3]
          rw [hres]
          constructor
          · intro h; exact absurd h (by simp)
          · rintro ⟨-, -, -, -, c2, r2, hc2, -⟩; cases hc2
        | some contents =>
          cases h4 : eff.copyErr with
          | some e =>
            have hres : (UploadFileWithPolicy eff fs policy localFile objectKey).1 =
                Except.error (GoErr.wrap "copy file" e) := by
              simp [UploadFileWithPolicy, h1, h2, h3, h4]
            rw [hres]
            constructor
            · intro h; exact absurd h (by simp)
            · rintro ⟨-, -, hf, -⟩; cases hf
          | none =>
            cases h5 : eff.newRequestErr with
            | some e =>
              have hres : (UploadFileWithPolicy eff fs policy localFile objectKey).1 =
                  Except.error (GoErr.wrap "new request" e) := by
                simp [UploadFileWithPolicy, h1, h2, h3, h4, h5]
              rw [hres]
              constructor
              · intro h; exact absurd h (by simp)
              · rintro ⟨-, -, -, hf, -⟩; cases hf
            | none =>
              cases h6 : eff.send (uploadRequest policy localFile contents eff.boundary) with
              | error e =>
                have hres : (UploadFileWithPolicy eff fs policy localFile objectKey).1 =
                    Except.error (GoErr.wrap "upload error" e) := by
                  simp [UploadFileWithPolicy, h1, h2, h3, h4, h5, h6]
                rw [hres]
                constructor
                · intro h; exact absurd h (by simp)
                · rintro ⟨-, -, -, -, c2, r2, hc2, hs2, -⟩
                  injection hc2 with hcc
                  subst hcc
                  rw [h6] at hs2
                  cases hs2
              | ok resp =>
                by_cases hc : resp.statusCode ≠ 204 ∧ resp.statusCode ≠ 200
                · have hres : (UploadFileWithPolicy eff fs policy localFile objectKey).1 =
                      Except.error (GoErr.base ("upload failed: status " ++ resp.status ++
                        ", body: " ++ resp.body)) := by
                    simp only [UploadFileWithPolicy, h1, h2, h3, h4, h5, h6, if_pos hc]
                  rw [hres]
                  constructor
                  · intro h; exact absurd h (by simp)
                  · rintro ⟨-, -, -, -, c2, r2, hc2, hs2, hst⟩
                    injection hc2 with hcc
                    subst hcc
                    rw [h6] at hs2
                    injection hs2 with hrr
                    subst hrr
                    rcases hst with h | h
                    · exact absurd h hc.1
                    · exact absurd h hc.2
                · have hres : (UploadFileWithPolicy eff fs policy localFile objectKey).1 =
                      Except.ok () := by
                    simp only [UploadFileWithPolicy, h1, h2, h3, h4, h5, h6, if_neg hc]
                  rw [hres]
                  push_neg at hc
                  constructor
                  · intro _
                    refine ⟨rfl, rfl, rfl, rfl, contents, resp, rfl, h6, ?_⟩
                    by_cases h204 : resp.statusCode = 204
                    · exact Or.inl h204
                    · exact Or.inr (hc h204)
                  · intro _; rfl
  · intro contents resp h1 h2 h3 h4 h5 h6 h204 h200
    have hc : resp.statusCode ≠ 204 ∧ resp.statusCode ≠ 200 := ⟨h204, h200⟩
    simp [UploadFileWithPolicy, h1, h2, h3, h4, h5, h6, hc]

/-- C9, witness: a concrete run answered with status 500 produces the
status-and-body error. -/
theorem C9_status_check_witness :
    (UploadFileWithPolicy demoUpload500 ⟨[("/tmp/test.gz", [31, 139])]⟩ demoPolicy
        "/tmp/test.gz" "alice/job1/test.gz").1 =
      Except.error (GoErr.base ("upload failed: status " ++ "500 Internal Server Error" ++
        ", body: " ++ "boom")) :=
  (C9_status_check demoUpload500 ⟨[("/tmp/test.gz", [31, 139])]⟩ demoPolicy
      "/tmp/test.gz" "alice/job1/test.gz").2 [31, 139] ⟨500, "500 Internal Server Error", "boom"⟩
    rfl rfl (by decide) rfl rfl rfl (by decide) (by decide)
